import Mathlib

/-!
Shallow embedding of src/main.py (the NewsScraper class) and proofs about
the pagination, retry, deduplication, stagnation, cooldown, cancellation
and rendering behavior of that code.

Conventions of the embedding:
- a raw result item (a GoogleNews result dict) is a record of the fields
  the code reads: link, title, desc, media;
- one fetch attempt (gn.get_page followed by gn.results, lines 59-60) is an
  opaque input: either a result list or a raised exception carrying its
  message string;
- time.sleep and session replacement (create_instance) are modelled as an
  event trace; random draws are an input stream bundled in a RandDraws record;
- the KeyboardInterrupt of lines 130-132 is modelled as a cooperative
  cancellation flag checked between page iterations.
-/

/-- A raw result item as the code reads it: the dict fields link, title,
desc and media. -/
structure RawItem where
  link : String
  title : String
  desc : String
  media : String
deriving DecidableEq

/-- Outcome of one fetch attempt (gn.get_page plus gn.results, lines 59-60):
either a result list or a raised exception with its message string. -/
inductive FetchOutcome where
  | success (results : List RawItem)
  | failure (msg : String)
deriving DecidableEq

/-- Observable timed or session effects of a run: a time.sleep of some
duration, a session replacement (self.gn = self.create_instance), or the
batch-cooldown sleep of line 128. -/
inductive Event where
  | sleep (seconds : ℚ)
  | refresh
  | cooldown (seconds : ℚ)
deriving DecidableEq

/-- Lowercasing of one character, as Python str.lower acts on the ASCII
letters of the exception messages. -/
def charLower (c : Char) : Char :=
  if 65 ≤ c.toNat ∧ c.toNat ≤ 90 then Char.ofNat (c.toNat + 32) else c

/-- Lowercasing of a string, character by character. -/
def strLower (s : String) : String := String.mk (s.data.map charLower)

/-- Whether the second character list starts the first. -/
def charsStartWith : List Char → List Char → Bool
  | _, [] => true
  | [], _ :: _ => false
  | c :: cs, d :: ds => c == d && charsStartWith cs ds

/-- Whether the second character list occurs inside the first. -/
def charsContain : List Char → List Char → Bool
  | [], sub => charsStartWith [] sub
  | c :: cs, sub => charsStartWith (c :: cs) sub || charsContain cs sub

/-- Substring test modelling the Python expression sub in s. -/
def strContains (s sub : String) : Bool :=
  charsContain s.data sub.data

/-- Classification of a raised exception message as a rate-limit signal,
line 74: the lowercased message contains 429 or too many requests. -/
def isRateLimit (msg : String) : Bool :=
  strContains (strLower msg) "429" || strContains (strLower msg) "too many requests"

/-- Number of attempts of the per-page retry loop, line 55. -/
def max_retries : Nat := 3

/-- The retry loop of NewsScraper.scrape_page (lines 57-88), recursing on the
number of remaining attempts; attempt is the 0-indexed attempt number and
jitter models the random.uniform 0.8 1.2 draw of line 82. Returns the items
of the page together with the emitted sleep and refresh events. On a
success the results are filtered by raw link against the seen set
(lines 63-67); on a rate-limit failure the code sleeps 600 seconds and then
replaces the session (lines 75-78); on any other failure it replaces the
session and then sleeps 30 * 2 ^ attempt * jitter (lines 82-85). -/
def scrapePageGo (fetch : Nat → FetchOutcome) (seen : List String)
    (jitter : Nat → ℚ) : Nat → Nat → List RawItem × List Event
  | _, 0 => ([], [])
  | attempt, remaining + 1 =>
    match fetch attempt with
    | FetchOutcome.success results =>
        (results.filter (fun a => !(seen.contains a.link)), [])
    | FetchOutcome.failure msg =>
        if isRateLimit msg then
          let rest := scrapePageGo fetch seen jitter (attempt + 1) remaining
          (rest.1, Event.sleep 600 :: Event.refresh :: rest.2)
        else
          let rest := scrapePageGo fetch seen jitter (attempt + 1) remaining
          (rest.1, Event.refresh ::
            Event.sleep (30 * 2 ^ attempt * jitter attempt) :: rest.2)

/-- NewsScraper.scrape_page (lines 53-88): the retry loop entered with
attempt 0 and max_retries remaining attempts; after max_retries failed
attempts it returns the empty list (line 88), never an error. -/
def scrape_page (fetch : Nat → FetchOutcome) (seen : List String)
    (jitter : Nat → ℚ) : List RawItem × List Event :=
  scrapePageGo fetch seen jitter 0 max_retries

/-- The mutable state of a run: self.articles, self.unique_urls (kept as a
list, membership by exact string equality as for the Python set), and
self.consecutive_empty (lines 36-38), plus the emitted event trace. -/
structure ScrapeState where
  articles : List RawItem
  unique_urls : List String
  consecutive_empty : Nat
  trace : List Event
deriving DecidableEq

/-- The state built by NewsScraper.__init__ (lines 34-38). -/
def initState : ScrapeState := ⟨[], [], 0, []⟩

/-- The random draws a run consumes, as input streams: rotDraw models
random.randint 3 7 at line 102, delayDraw models random.uniform 3 7 at
line 49, jitter models random.uniform 0.8 1.2 at line 82 (per page and per
attempt), coolDraw models random.uniform 240 360 at line 126. -/
structure RandDraws where
  rotDraw : Nat → Nat
  delayDraw : Nat → ℚ
  jitter : Nat → Nat → ℚ
  coolDraw : Nat → ℚ

/-- NewsScraper.smart_delay (lines 47-51): the duration actually slept,
min (uniform 3 7 + page * 0.2) 15. -/
def smart_delay (rand : RandDraws) (page : Nat) : ℚ :=
  min (rand.delayDraw page + (page : ℚ) * (2 / 10)) 15

/-- One iteration of the inner page loop of NewsScraper.scrape
(lines 100-117): the random session refresh when page mod randint 3 7 is 0
(lines 102-103), the adaptive delay (line 105), the call to scrape_page
(line 108), and the bookkeeping of lines 110-117: on a nonempty page the
articles are extended, the link set updated and the empty counter reset
together; otherwise the empty counter is incremented. -/
def processPage (fetch : Nat → Nat → FetchOutcome) (rand : RandDraws)
    (s : ScrapeState) (page : Nat) : ScrapeState :=
  let t0 := if page % rand.rotDraw page == 0 then s.trace ++ [Event.refresh]
            else s.trace
  let t1 := t0 ++ [Event.sleep (smart_delay rand page)]
  let pr := scrape_page (fetch page) s.unique_urls (rand.jitter page)
  let t2 := t1 ++ pr.2
  if pr.1.isEmpty then
    { s with trace := t2, consecutive_empty := s.consecutive_empty + 1 }
  else
    { articles := s.articles ++ pr.1,
      unique_urls := s.unique_urls ++ pr.1.map RawItem.link,
      consecutive_empty := 0,
      trace := t2 }

/-- How the inner page loop ends: the page list was exhausted, the
stagnation return of line 122 fired, or a KeyboardInterrupt was observed. -/
inductive LoopResult where
  | finished (s : ScrapeState)
  | stopped (s : ScrapeState)
  | interrupted (s : ScrapeState)
deriving DecidableEq

/-- The inner page loop (lines 100-122) over a list of page numbers, with
the stagnation return when consecutive_empty reaches 15 (lines 120-122) and
the cooperative cancellation check between page iterations. -/
def runPages (fetch : Nat → Nat → FetchOutcome) (rand : RandDraws)
    (cancel : Nat → Bool) : List Nat → ScrapeState → LoopResult
  | [], s => LoopResult.finished s
  | page :: rest, s =>
    if cancel page then LoopResult.interrupted s
    else
      let s1 := processPage fetch rand s page
      if 15 ≤ s1.consecutive_empty then LoopResult.stopped s1
      else runPages fetch rand cancel rest s1

/-- Python range start stop. -/
def pyRange (start stop : Nat) : List Nat :=
  (List.range (stop - start)).map (fun i => start + i)

/-- Python range 0 stop step for a positive step. -/
def pyRangeStep (stop step : Nat) : List Nat :=
  (List.range ((stop + step - 1) / step)).map (fun i => i * step)

/-- MAX_PAGES, line 31. -/
def MAX_PAGES : Nat := 100

/-- batch_size, line 93. -/
def batch_size : Nat := 10

/-- The pages of one batch: range (batch_start + 1) batch_end where
batch_end = min (batch_start + batch_size) (MAX_PAGES + 1) (lines 97, 100). -/
def batchPages (batch_start : Nat) : List Nat :=
  pyRange (batch_start + 1) (min (batch_start + batch_size) (MAX_PAGES + 1))

/-- The batch starts: range 0 MAX_PAGES batch_size (line 96). -/
def batchStarts : List Nat := pyRangeStep MAX_PAGES batch_size

/-- Every page number the scrape loop visits, in order. -/
def visitedPages : List Nat := (batchStarts.map batchPages).flatten

/-- The outer batch loop of NewsScraper.scrape (lines 96-128): each batch
runs its pages; the stagnation return (line 122) and a KeyboardInterrupt
(lines 130-132) both end the whole run at once with the current state; after
a completed batch the cooldown sleep of lines 124-128 is emitted when
batch_end is at most MAX_PAGES. -/
def scrapeBatches (fetch : Nat → Nat → FetchOutcome) (rand : RandDraws)
    (cancel : Nat → Bool) : List Nat → ScrapeState → ScrapeState
  | [], s => s
  | bs :: rest, s =>
    match runPages fetch rand cancel (batchPages bs) s with
    | LoopResult.stopped s1 => s1
    | LoopResult.interrupted s1 => s1
    | LoopResult.finished s1 =>
      let s2 := if min (bs + batch_size) (MAX_PAGES + 1) ≤ MAX_PAGES
        then { s1 with trace := s1.trace ++ [Event.cooldown (rand.coolDraw bs)] }
        else s1
      scrapeBatches fetch rand cancel rest s2

/-- NewsScraper.scrape (lines 90-133): the final state of a run started from
the freshly initialized state. -/
def scrapeRun (fetch : Nat → Nat → FetchOutcome) (rand : RandDraws)
    (cancel : Nat → Bool) : ScrapeState :=
  scrapeBatches fetch rand cancel batchStarts initState

/-- The return value of NewsScraper.scrape (lines 122 and 133): the
accumulated article list. -/
def scrape (fetch : Nat → Nat → FetchOutcome) (rand : RandDraws)
    (cancel : Nat → Bool) : List RawItem :=
  (scrapeRun fetch rand cancel).articles

/-- The deduplication key the code computes from an item at line 66: the raw
link string, used unchanged. -/
def urlKey (a : RawItem) : String := a.link

/-- The normalization the code applies to a link before using it as a key at
line 66: none, the identity. -/
def urlNormalize (link : String) : String := link

/-- Where a block was drawn by create_pdf: the 1-indexed page, the y cursor
at drawing time (the block occupies the vertical span from top - height to
top, line 176), and the measured block height (line 170). -/
structure Placement where
  page : Nat
  top : ℚ
  height : ℚ
deriving DecidableEq

/-- The block layout loop of NewsScraper.create_pdf (lines 155-177): each
measured height is placed at the current y cursor; when the block would dip
below y = 50 (line 172) a new page starts and the cursor resets to 750
(lines 173-174); after a placement the cursor drops by height + 10
(line 177). -/
def layoutGo : List ℚ → Nat → ℚ → List Placement
  | [], _, _ => []
  | h :: rest, pg, y =>
    if y - h < 50 then
      Placement.mk (pg + 1) 750 h :: layoutGo rest (pg + 1) (750 - h - 10)
    else
      Placement.mk pg y h :: layoutGo rest pg (y - h - 10)

/-- NewsScraper.create_pdf (lines 135-185): None on an empty article list
(lines 137-138); otherwise a filename derived from the current date
(line 141) together with the layout of the measured block heights, the
title block leaving the first-page cursor at y = 750 - 40 = 710
(lines 145-148). The height measurement (wrapOn, lines 168-170) is opaque
and passed in as the measure function. -/
def create_pdf (articles : List RawItem) (measure : RawItem → ℚ)
    (today : String) : Option (String × List Placement) :=
  if articles.isEmpty then none
  else some ("India_Business_News_" ++ today ++ ".pdf",
             layoutGo (articles.map measure) 1 710)

/-! Concrete fixtures used by the counterexamples and witnesses. -/

/-- A fixed stream of random draws, each inside the range the code draws
from: rotDraw 3, delayDraw 5, jitter 1, coolDraw 300. -/
def trivRand : RandDraws := ⟨fun _ => 3, fun _ => 5, fun _ _ => 1, fun _ => 300⟩

/-- No cancellation signal. -/
def noCancel : Nat → Bool := fun _ => false

/-- Item with link a.com and title Foo. -/
def itemA : RawItem := ⟨"http://a.com", "Foo", "", ""⟩

/-- Item with link b.com and the same title Foo. -/
def itemB : RawItem := ⟨"http://b.com", "Foo", "", ""⟩

/-- A source where page 1 returns itemA, page 2 returns itemB and every
other page succeeds with no results. -/
def fetchTwoTitles : Nat → Nat → FetchOutcome := fun page _ =>
  if page = 1 then FetchOutcome.success [itemA]
  else if page = 2 then FetchOutcome.success [itemB]
  else FetchOutcome.success []

/-- Item whose link carries a tracking query parameter. -/
def itemTrk : RawItem := ⟨"http://a.com?utm_src=x", "Foo", "", ""⟩

/-- Item with the same link stripped of the tracking parameter. -/
def itemPlain : RawItem := ⟨"http://a.com", "foo", "", ""⟩

/-- Item with an unrelated link. -/
def itemOther : RawItem := ⟨"http://b.com", "Bar", "", ""⟩

/-- The end-to-end scenario source: pages 1, 2, 3 return the tracked, the
plain and the unrelated item; every other page succeeds with no results. -/
def fetchTracking : Nat → Nat → FetchOutcome := fun page _ =>
  if page = 1 then FetchOutcome.success [itemTrk]
  else if page = 2 then FetchOutcome.success [itemPlain]
  else if page = 3 then FetchOutcome.success [itemOther]
  else FetchOutcome.success []

/-- A source raising a generic (non rate-limit) exception on attempt 0 and
succeeding with no results afterwards. -/
def fetchTransientOnce : Nat → FetchOutcome := fun k =>
  if k = 0 then FetchOutcome.failure "connection reset" else FetchOutcome.success []

/-- A source that fails every attempt of every page with a generic message. -/
def fetchAlwaysFail : Nat → Nat → FetchOutcome := fun _ _ =>
  FetchOutcome.failure "boom"

/-- A source producing one novel item on every page. -/
def fetchFresh : Nat → Nat → FetchOutcome := fun page _ =>
  FetchOutcome.success [⟨"http://x/" ++ toString page, "t" ++ toString page, "", ""⟩]

/-- A source whose every attempt raises a rate-limit error. -/
def fetchRateLimited : Nat → FetchOutcome := fun _ =>
  FetchOutcome.failure "429 Too Many Requests"

/-- A source where every page succeeds with an empty result list. -/
def fetchEmpty : Nat → Nat → FetchOutcome := fun _ _ =>
  FetchOutcome.success []

/-- A state whose consecutive-empty counter is one short of the stagnation
threshold. -/
def nearStagnation : ScrapeState := ⟨[], [], 14, []⟩

/-- A cancellation signal arriving at page 1. -/
def cancelAtOne : Nat → Bool := fun p => p == 1

/-- The constructor of an event, forgetting the duration: 0 for a sleep, 1
for a session refresh, 2 for a batch cooldown. -/
def eventKind : Event → Nat
  | Event.sleep _ => 0
  | Event.refresh => 1
  | Event.cooldown _ => 2

/-- The dedup-relevant core of a state: the articles, the seen links and the
consecutive-empty counter, forgetting the timing trace. -/
def stateCore (s : ScrapeState) : List RawItem × List String × Nat :=
  (s.articles, s.unique_urls, s.consecutive_empty)

/-- The constructor of a loop result: 0 finished, 1 stopped, 2 interrupted. -/
def loopTag : LoopResult → Nat
  | LoopResult.finished _ => 0
  | LoopResult.stopped _ => 1
  | LoopResult.interrupted _ => 2

/-- The state a loop result carries. -/
def loopState : LoopResult → ScrapeState
  | LoopResult.finished s => s
  | LoopResult.stopped s => s
  | LoopResult.interrupted s => s

/-! Theorems settling the claims. -/

/-- C1 counterexample: itemA and itemB share the same title (hence the same
normalized title under any normalization), yet the run admits both into the
result collection, because the code keeps no seen-title set at all
(lines 63-67, 110-114): at most one admitted item per normalized title is
false. -/
theorem C1_counterexample :
    scrape fetchTwoTitles trivRand noCancel = [itemA, itemB] ∧
    itemA.title = itemB.title ∧ itemA ≠ itemB := by
  refine ⟨by decide, rfl, by decide⟩

/-- C2: the loops of lines 96-100 skip every multiple of 10 including page
100, because the inner range stops one short of batch_end = batch_start +
10: only 90 of the 100 pages are ever fetched, in batches of 9 pages, never
the pages 1..100 in batches of 10 that the surrounding code intends. -/
theorem C2_pages_skipped :
    visitedPages.length = 90 ∧ ¬(10 ∈ visitedPages) ∧ ¬(100 ∈ visitedPages) ∧
    (batchPages 0).length = 9 ∧ visitedPages ≠ pyRange 1 (MAX_PAGES + 1) := by
  decide

/-- C5 counterexample: after a generic transient failure the code replaces
the session first (line 84) and sleeps afterwards (line 85), so the emitted
order is refresh then sleep of 30 * 2 ^ 0 * 1 = 30 seconds, not the claimed
wait followed by discarding and reopening the session. -/
theorem C5_counterexample :
    (scrape_page fetchTransientOnce [] (fun _ => 1)).2
        = [Event.refresh, Event.sleep 30] ∧
    (scrape_page fetchTransientOnce [] (fun _ => 1)).2
        ≠ [Event.sleep 30, Event.refresh] := by
  have step : (scrape_page fetchTransientOnce [] (fun _ => 1)).2
      = [Event.refresh, Event.sleep ((30 : ℚ) * 2 ^ 0 * 1)] := rfl
  have h30 : (30 : ℚ) * 2 ^ 0 * 1 = 30 := by norm_num
  rw [step, h30]
  refine ⟨rfl, by simp⟩

/-- C6 counterexample: two URLs that differ only by a tracking query
parameter are distinct deduplication keys for the code (the raw link is the
key, line 66), and a run admits the tracked and the untracked variant, and
also the item with an unrelated link: the claimed collapse of
tracking-parameter variants to one key is false (the spec scenario expects
2 admitted articles here, the code admits 3). -/
theorem C6_counterexample :
    urlKey itemTrk ≠ urlKey itemPlain ∧
    scrape fetchTracking trivRand noCancel = [itemTrk, itemPlain, itemOther] := by
  decide

set_option maxRecDepth 40000 in
/-- C7: with a source producing a novel item on every page the run completes
all 10 batches, and the trace ends in a batch-cooldown sleep and holds 10
cooldowns, one per batch including the final one: the guard of line 125
(batch_end at most MAX_PAGES) is true for the last batch since 100 is at
most 100, so the 4-6 minute sleep fires even though no pages remain,
against the comment of line 124 and the claim. -/
theorem C7_final_batch_cooldown :
    ((scrapeRun fetchFresh trivRand noCancel).trace.map eventKind).getLast?
        = some 2 ∧
    (((scrapeRun fetchFresh trivRand noCancel).trace.map eventKind).filter
        (fun k => k == 2)).length = 10 := by
  decide

/-- If every attempt of a window of the retry loop fails, the loop returns
no items. -/
theorem scrapePageGo_fail_items (fetch : Nat → FetchOutcome) (seen : List String)
    (jitter : Nat → ℚ) :
    ∀ r attempt,
      (∀ k, attempt ≤ k → k < attempt + r → ∃ m, fetch k = FetchOutcome.failure m) →
      (scrapePageGo fetch seen jitter attempt r).1 = [] := by
  intro r
  induction r with
  | zero => intro attempt h; rfl
  | succ n ih =>
    intro attempt h
    obtain ⟨m, hm⟩ := h attempt (Nat.le_refl _) (by omega)
    simp only [scrapePageGo, hm]
    split
    · exact ih (attempt + 1) (fun k hk1 hk2 => h k (by omega) (by omega))
    · exact ih (attempt + 1) (fun k hk1 hk2 => h k (by omega) (by omega))

/-- C3: when all 3 attempts of a page raise, scrape_page returns the empty
item list (it always returns, line 88, so no fetch error escapes the retry
loop), the page is recorded as an empty page (the counter increments and no
article is added), and a failure whose message is not a rate-limit
signature takes the generic backoff branch of lines 82-85 and continues the
loop, exactly as a TransientFetchError, rather than propagating. -/
theorem C3_error_absorption (fetch : Nat → Nat → FetchOutcome)
    (rand : RandDraws) (s : ScrapeState) (page : Nat)
    (seen : List String) (jitter : Nat → ℚ)
    (hf : ∀ k, k < max_retries → ∃ m, fetch page k = FetchOutcome.failure m) :
    (scrape_page (fetch page) seen jitter).1 = [] ∧
    (processPage fetch rand s page).consecutive_empty = s.consecutive_empty + 1 ∧
    (processPage fetch rand s page).articles = s.articles ∧
    (∀ (g : Nat → FetchOutcome) (sn : List String) (jt : Nat → ℚ)
       (k r : Nat) (msg : String),
       g k = FetchOutcome.failure msg → isRateLimit msg = false →
       scrapePageGo g sn jt k (r + 1)
         = ((scrapePageGo g sn jt (k + 1) r).1,
            Event.refresh :: Event.sleep (30 * 2 ^ k * jt k)
              :: (scrapePageGo g sn jt (k + 1) r).2)) := by
  have hempty : ∀ sn : List String, (scrape_page (fetch page) sn jitter).1 = [] := by
    intro sn
    exact scrapePageGo_fail_items (fetch page) sn jitter max_retries 0
      (fun k hk1 hk2 => hf k (by omega))
  have hempty2 : ∀ (sn : List String) (jt : Nat → ℚ),
      (scrape_page (fetch page) sn jt).1 = [] := by
    intro sn jt
    exact scrapePageGo_fail_items (fetch page) sn jt max_retries 0
      (fun k hk1 hk2 => hf k (by omega))
  refine ⟨hempty seen, ?_, ?_, ?_⟩
  · simp only [processPage]
    rw [hempty2 s.unique_urls (rand.jitter page)]
    rfl
  · simp only [processPage]
    rw [hempty2 s.unique_urls (rand.jitter page)]
    rfl
  · intro g sn jt k r msg hg hrl
    simp only [scrapePageGo, hg, hrl]
    simp

/-- Witness for C3 at a source failing every attempt with a generic
message. -/
theorem C3_error_absorption_witness :
    (scrape_page (fetchAlwaysFail 1) [] (fun _ => 1)).1 = [] ∧
    (processPage fetchAlwaysFail trivRand initState 1).consecutive_empty
      = initState.consecutive_empty + 1 ∧
    (processPage fetchAlwaysFail trivRand initState 1).articles
      = initState.articles ∧
    (∀ (g : Nat → FetchOutcome) (sn : List String) (jt : Nat → ℚ)
       (k r : Nat) (msg : String),
       g k = FetchOutcome.failure msg → isRateLimit msg = false →
       scrapePageGo g sn jt k (r + 1)
         = ((scrapePageGo g sn jt (k + 1) r).1,
            Event.refresh :: Event.sleep (30 * 2 ^ k * jt k)
              :: (scrapePageGo g sn jt (k + 1) r).2)) :=
  C3_error_absorption fetchAlwaysFail trivRand initState 1 [] (fun _ => 1)
    (fun _ _ => ⟨"boom", rfl⟩)

/-- C1 amended: on a successful fetch the page admits exactly the items
whose raw link is absent from the seen-URL set at decision time (titles are
never consulted for admission), and the append to the article collection
and the update of the seen-URL set happen together in the same state
transition (lines 110-114). -/
theorem C1_amended (fetch : Nat → Nat → FetchOutcome) (rand : RandDraws)
    (s : ScrapeState) (page : Nat) (results : List RawItem)
    (h : fetch page 0 = FetchOutcome.success results) :
    (processPage fetch rand s page).articles
      = s.articles ++ results.filter (fun a => !(s.unique_urls.contains a.link)) ∧
    (processPage fetch rand s page).unique_urls
      = s.unique_urls
        ++ (results.filter (fun a => !(s.unique_urls.contains a.link))).map
            RawItem.link := by
  have hp : (scrape_page (fetch page) s.unique_urls (rand.jitter page)).1
      = results.filter (fun a => !(s.unique_urls.contains a.link)) := by
    simp only [scrape_page, max_retries, scrapePageGo, h]
  simp only [processPage, hp]
  by_cases hE : (results.filter (fun a => !(s.unique_urls.contains a.link))).isEmpty
  · rw [if_pos hE]
    rw [List.isEmpty_iff] at hE
    rw [hE]
    simp
  · rw [if_neg hE]
    exact ⟨rfl, rfl⟩

/-- Witness for the amended C1 at the two-title source, page 1, the initial
state. -/
theorem C1_amended_witness :
    (processPage fetchTwoTitles trivRand initState 1).articles
      = initState.articles
        ++ [itemA].filter (fun a => !(initState.unique_urls.contains a.link)) ∧
    (processPage fetchTwoTitles trivRand initState 1).unique_urls
      = initState.unique_urls
        ++ ([itemA].filter
            (fun a => !(initState.unique_urls.contains a.link))).map
            RawItem.link :=
  C1_amended fetchTwoTitles trivRand initState 1 [itemA] rfl

/-- C4: the consecutive-empty counter increments exactly when the page
admitted no item and resets to 0 otherwise (lines 110-117); as soon as it
reaches 15 after a page, the inner loop returns at once with the state of
that page (lines 120-122), skipping the remaining pages of the batch; and a
batch whose page loop stopped this way ends the whole run immediately with
exactly the articles collected so far, with no batch cooldown and no later
batch (the return of line 122 leaves scrape before line 125). -/
theorem C4_stagnation (fetch : Nat → Nat → FetchOutcome) (rand : RandDraws)
    (cancel : Nat → Bool) (s : ScrapeState) (page : Nat) (rest : List Nat)
    (bs : Nat) (brest : List Nat) (s1 : ScrapeState)
    (hc : cancel page = false)
    (hstop : runPages fetch rand cancel (batchPages bs) s
      = LoopResult.stopped s1) :
    ((processPage fetch rand s page).consecutive_empty
      = if (scrape_page (fetch page) s.unique_urls (rand.jitter page)).1.isEmpty
        then s.consecutive_empty + 1 else 0) ∧
    (15 ≤ (processPage fetch rand s page).consecutive_empty →
      runPages fetch rand cancel (page :: rest) s
        = LoopResult.stopped (processPage fetch rand s page)) ∧
    scrapeBatches fetch rand cancel (bs :: brest) s = s1 := by
  refine ⟨?_, ?_, ?_⟩
  · simp only [processPage]
    by_cases hE :
        (scrape_page (fetch page) s.unique_urls (rand.jitter page)).1.isEmpty
    · rw [if_pos hE, if_pos hE]
    · rw [if_neg hE, if_neg hE]
  · intro h15
    simp only [runPages, hc]
    rw [if_neg (by simp)]
    rw [if_pos h15]
  · simp only [scrapeBatches, hstop]

/-- Witness for C4 at a state one short of the threshold, an all-empty
source, page 1. -/
theorem C4_stagnation_witness :
    ((processPage fetchEmpty trivRand nearStagnation 1).consecutive_empty
      = if (scrape_page (fetchEmpty 1) nearStagnation.unique_urls
            (trivRand.jitter 1)).1.isEmpty
        then nearStagnation.consecutive_empty + 1 else 0) ∧
    (15 ≤ (processPage fetchEmpty trivRand nearStagnation 1).consecutive_empty →
      runPages fetchEmpty trivRand noCancel [1, 2]
          nearStagnation
        = LoopResult.stopped (processPage fetchEmpty trivRand nearStagnation 1)) ∧
    scrapeBatches fetchEmpty trivRand noCancel (0 :: [10]) nearStagnation
      = processPage fetchEmpty trivRand nearStagnation 1 :=
  C4_stagnation fetchEmpty trivRand noCancel nearStagnation 1 [2] 0 [10]
    (processPage fetchEmpty trivRand nearStagnation 1) rfl rfl

/-- C5 amended: within the 3-attempt retry loop (scrape_page enters the loop
with 3 remaining attempts), a rate-limit failure sleeps the fixed 600
seconds and then discards and reopens the session, while a generic
transient failure on 0-indexed attempt k discards and reopens the session
and then sleeps 30 * 2 ^ k * jitter k seconds; both kinds consume one of
the 3 attempts. -/
theorem C5_amended (fetch : Nat → FetchOutcome) (seen : List String)
    (jitter : Nat → ℚ) (attempt remaining : Nat) (msg : String)
    (h : fetch attempt = FetchOutcome.failure msg) :
    (isRateLimit msg = true →
      scrapePageGo fetch seen jitter attempt (remaining + 1)
        = ((scrapePageGo fetch seen jitter (attempt + 1) remaining).1,
           Event.sleep 600 :: Event.refresh ::
             (scrapePageGo fetch seen jitter (attempt + 1) remaining).2)) ∧
    (isRateLimit msg = false →
      scrapePageGo fetch seen jitter attempt (remaining + 1)
        = ((scrapePageGo fetch seen jitter (attempt + 1) remaining).1,
           Event.refresh :: Event.sleep (30 * 2 ^ attempt * jitter attempt) ::
             (scrapePageGo fetch seen jitter (attempt + 1) remaining).2)) ∧
    scrape_page fetch seen jitter = scrapePageGo fetch seen jitter 0 3 := by
  refine ⟨?_, ?_, rfl⟩
  · intro hrl
    simp only [scrapePageGo, h, hrl]
    simp
  · intro hrl
    simp only [scrapePageGo, h, hrl]
    simp

/-- Witness for the amended C5 at a source raising a 429 failure on every
attempt, attempt 0 of 3. -/
theorem C5_amended_witness :
    (isRateLimit "429 Too Many Requests" = true →
      scrapePageGo fetchRateLimited [] (fun _ => 1) 0 (2 + 1)
        = ((scrapePageGo fetchRateLimited [] (fun _ => 1) (0 + 1) 2).1,
           Event.sleep 600 :: Event.refresh ::
             (scrapePageGo fetchRateLimited [] (fun _ => 1) (0 + 1) 2).2)) ∧
    (isRateLimit "429 Too Many Requests" = false →
      scrapePageGo fetchRateLimited [] (fun _ => 1) 0 (2 + 1)
        = ((scrapePageGo fetchRateLimited [] (fun _ => 1) (0 + 1) 2).1,
           Event.refresh ::
             Event.sleep (30 * 2 ^ 0 * (fun _ : Nat => (1 : ℚ)) 0) ::
             (scrapePageGo fetchRateLimited [] (fun _ => 1) (0 + 1) 2).2)) ∧
    scrape_page fetchRateLimited [] (fun _ => 1)
      = scrapePageGo fetchRateLimited [] (fun _ => 1) 0 3 :=
  C5_amended fetchRateLimited [] (fun _ => 1) 0 2 "429 Too Many Requests" rfl

/-- C6 amended: the normalization the code applies to a URL is the identity
on the raw link string: it is trivially idempotent, but it does not strip
tracking parameters nor reorder the query, so URLs differing there stay
distinct keys; the admission filter compares exactly this raw-link key
against the seen set, and titles are not normalized or used as keys at
all. -/
theorem C6_amended (link : String) (rs : List RawItem) (seen : List String)
    (jitter : Nat → ℚ) :
    urlNormalize (urlNormalize link) = urlNormalize link ∧
    urlNormalize link = link ∧
    (∀ a : RawItem, urlKey a = a.link) ∧
    (scrape_page (fun _ => FetchOutcome.success rs) seen jitter).1
      = rs.filter (fun a => !(seen.contains (urlNormalize (urlKey a)))) := by
  exact ⟨rfl, rfl, fun a => rfl, rfl⟩

/-- The layout places one block per measured height, in order. -/
theorem layoutGo_heights (hs : List ℚ) :
    ∀ pg y, (layoutGo hs pg y).map Placement.height = hs := by
  induction hs with
  | nil => intro pg y; rfl
  | cons h t ih =>
    intro pg y
    simp only [layoutGo]
    split
    · simp [ih]
    · simp [ih]

/-- Every block placed from a cursor at most 750, with all heights in
[0, 700], lies entirely inside the vertical span [50, 750] of its page. -/
theorem layoutGo_fits (hs : List ℚ) :
    ∀ (pg : Nat) (y : ℚ), y ≤ 750 → (∀ h ∈ hs, 0 ≤ h ∧ h ≤ 700) →
      ∀ p ∈ layoutGo hs pg y, 50 ≤ p.top - p.height ∧ p.top ≤ 750 := by
  induction hs with
  | nil =>
    intro pg y hy hb p hp
    simp [layoutGo] at hp
  | cons h t ih =>
    intro pg y hy hb p hp
    have hh := hb h (by simp)
    have hbt : ∀ x ∈ t, 0 ≤ x ∧ x ≤ 700 := fun x hx => hb x (by simp [hx])
    simp only [layoutGo] at hp
    by_cases hov : y - h < 50
    · rw [if_pos hov] at hp
      rcases List.mem_cons.mp hp with rfl | hp2
      · constructor
        · simp only []
          linarith [hh.2]
        · norm_num
      · exact ih (pg + 1) (750 - h - 10) (by linarith [hh.1]) hbt p hp2
    · rw [if_neg hov] at hp
      rcases List.mem_cons.mp hp with rfl | hp2
      · exact ⟨by simp only []; linarith, hy⟩
      · exact ih pg (y - h - 10) (by linarith [hh.1]) hbt p hp2

/-- C8: an empty article list renders no document; a nonempty list yields an
artifact named from the current date with one flowed block per article, in
order, of its measured height; when every measured height fits a page, no
placed block crosses the vertical page span [50, 750], and a block that
would overflow the remaining space is placed at the top of a fresh page. -/
theorem C8_renderer (articles : List RawItem) (measure : RawItem → ℚ)
    (today : String)
    (hne : articles ≠ [])
    (hb : ∀ a ∈ articles, 0 ≤ measure a ∧ measure a ≤ 700) :
    create_pdf [] measure today = none ∧
    create_pdf articles measure today
      = some ("India_Business_News_" ++ today ++ ".pdf",
              layoutGo (articles.map measure) 1 710) ∧
    (layoutGo (articles.map measure) 1 710).map Placement.height
      = articles.map measure ∧
    (∀ p ∈ layoutGo (articles.map measure) 1 710,
       50 ≤ p.top - p.height ∧ p.top ≤ 750) ∧
    (∀ (h : ℚ) (rest : List ℚ) (pg : Nat) (y : ℚ),
       y - h < 50 →
       layoutGo (h :: rest) pg y
         = Placement.mk (pg + 1) 750 h
             :: layoutGo rest (pg + 1) (750 - h - 10)) := by
  refine ⟨rfl, ?_, layoutGo_heights (articles.map measure) 1 710, ?_, ?_⟩
  · simp only [create_pdf]
    rw [if_neg (by simpa using hne)]
  · apply layoutGo_fits (articles.map measure) 1 710 (by norm_num)
    intro h hh
    obtain ⟨a, ha, rfl⟩ := List.mem_map.mp hh
    exact hb a ha
  · intro h rest pg y hov
    simp only [layoutGo]
    rw [if_pos hov]

/-- Witness for C8 at a one-article list with measured height 100. -/
theorem C8_renderer_witness :
    create_pdf [] (fun _ => 100) "2026-10-12" = none ∧
    create_pdf [itemA] (fun _ => 100) "2026-10-12"
      = some ("India_Business_News_" ++ "2026-10-12" ++ ".pdf",
              layoutGo ([itemA].map (fun _ => 100)) 1 710) ∧
    (layoutGo ([itemA].map (fun _ => 100)) 1 710).map Placement.height
      = [itemA].map (fun _ => 100) ∧
    (∀ p ∈ layoutGo ([itemA].map (fun _ => 100)) 1 710,
       50 ≤ p.top - p.height ∧ p.top ≤ 750) ∧
    (∀ (h : ℚ) (rest : List ℚ) (pg : Nat) (y : ℚ),
       y - h < 50 →
       layoutGo (h :: rest) pg y
         = Placement.mk (pg + 1) 750 h
             :: layoutGo rest (pg + 1) (750 - h - 10)) :=
  C8_renderer [itemA] (fun _ => 100) "2026-10-12" (by simp)
    (by intro a ha; constructor <;> norm_num)

/-- One page iteration only ever appends to the article collection. -/
theorem processPage_articles_mono (fetch : Nat → Nat → FetchOutcome)
    (rand : RandDraws) (s : ScrapeState) (page : Nat) :
    ∃ l, (processPage fetch rand s page).articles = s.articles ++ l := by
  simp only [processPage]
  split
  · exact ⟨[], by simp⟩
  · exact ⟨_, rfl⟩

/-- However the inner page loop ends, the state it carries extends the
article collection it started from. -/
theorem runPages_articles_mono (fetch : Nat → Nat → FetchOutcome)
    (rand : RandDraws) (cancel : Nat → Bool) :
    ∀ (pages : List Nat) (s s2 : ScrapeState),
      (runPages fetch rand cancel pages s = LoopResult.finished s2 ∨
       runPages fetch rand cancel pages s = LoopResult.stopped s2 ∨
       runPages fetch rand cancel pages s = LoopResult.interrupted s2) →
      ∃ l, s2.articles = s.articles ++ l := by
  intro pages
  induction pages with
  | nil =>
    intro s s2 h
    rcases h with h | h | h <;> simp only [runPages] at h <;>
      first
        | (cases h; exact ⟨[], by simp⟩)
        | cases h
  | cons p rest ih =>
    intro s s2 h
    by_cases hc : cancel p = true
    · rcases h with h | h | h <;> simp only [runPages, hc, if_pos] at h <;>
        first
          | (cases h; exact ⟨[], by simp⟩)
          | cases h
    · rw [Bool.not_eq_true] at hc
      obtain ⟨l0, hl0⟩ := processPage_articles_mono fetch rand s p
      by_cases h15 : 15 ≤ (processPage fetch rand s p).consecutive_empty
      · rcases h with h | h | h <;>
          simp only [runPages, hc, Bool.false_eq_true, if_false, if_pos h15] at h <;>
          first
            | (cases h; exact ⟨l0, hl0⟩)
            | cases h
      · have hrec :
            runPages fetch rand cancel (p :: rest) s
              = runPages fetch rand cancel rest (processPage fetch rand s p) := by
          simp only [runPages, hc, Bool.false_eq_true, if_false, if_neg h15]
        rw [hrec] at h
        obtain ⟨l1, hl1⟩ := ih (processPage fetch rand s p) s2 h
        exact ⟨l0 ++ l1, by rw [hl1, hl0, List.append_assoc]⟩

/-- C9: a cancellation observed before a page ends the page loop at once
with the state collected so far; a batch whose page loop was interrupted
ends the whole run immediately, returning that partial state as a normal
value (no cooldown, no later batch, no error); and however the loop ends,
the carried article collection extends the initial one, so no collected
item is lost. -/
theorem C9_cancellation (fetch : Nat → Nat → FetchOutcome) (rand : RandDraws)
    (cancel : Nat → Bool) (page : Nat) (rest pages : List Nat)
    (s s1 : ScrapeState) (bs : Nat) (brest : List Nat)
    (hc : cancel page = true)
    (hint : runPages fetch rand cancel (batchPages bs) s
      = LoopResult.interrupted s1) :
    runPages fetch rand cancel (page :: rest) s = LoopResult.interrupted s ∧
    scrapeBatches fetch rand cancel (bs :: brest) s = s1 ∧
    (∀ s2 : ScrapeState,
      (runPages fetch rand cancel pages s = LoopResult.finished s2 ∨
       runPages fetch rand cancel pages s = LoopResult.stopped s2 ∨
       runPages fetch rand cancel pages s = LoopResult.interrupted s2) →
      ∃ l, s2.articles = s.articles ++ l) := by
  refine ⟨?_, ?_, fun s2 h => runPages_articles_mono fetch rand cancel pages s s2 h⟩
  · simp only [runPages, hc, if_pos]
  · simp only [scrapeBatches, hint]

/-- Witness for C9: cancellation at page 1 of the first batch returns the
initial state. -/
theorem C9_cancellation_witness :
    runPages fetchTwoTitles trivRand cancelAtOne [1, 2] initState
      = LoopResult.interrupted initState ∧
    scrapeBatches fetchTwoTitles trivRand cancelAtOne (0 :: [10]) initState
      = initState ∧
    (∀ s2 : ScrapeState,
      (runPages fetchTwoTitles trivRand cancelAtOne [1] initState
          = LoopResult.finished s2 ∨
       runPages fetchTwoTitles trivRand cancelAtOne [1] initState
          = LoopResult.stopped s2 ∨
       runPages fetchTwoTitles trivRand cancelAtOne [1] initState
          = LoopResult.interrupted s2) →
      ∃ l, s2.articles = initState.articles ++ l) :=
  C9_cancellation fetchTwoTitles trivRand cancelAtOne 1 [2] [1]
    initState initState 0 [10] rfl rfl

/-- The items a page returns do not depend on the jitter draws: the jitter
only shapes the backoff sleep durations. -/
theorem scrapePageGo_items_jitter (fetch : Nat → FetchOutcome)
    (seen : List String) (j1 j2 : Nat → ℚ) :
    ∀ (r attempt : Nat),
      (scrapePageGo fetch seen j1 attempt r).1
        = (scrapePageGo fetch seen j2 attempt r).1 := by
  intro r
  induction r with
  | zero => intro a; rfl
  | succ n ih =>
    intro a
    simp only [scrapePageGo]
    cases hf : fetch a with
    | success rs => rfl
    | failure m =>
      by_cases hm : isRateLimit m
      · simp only [if_pos hm]
        exact ih (a + 1)
      · simp only [if_neg hm]
        exact ih (a + 1)

/-- One page iteration maps core-equal states to core-equal states whatever
the random draws: randomness touches only the trace. -/
theorem processPage_core (fetch : Nat → Nat → FetchOutcome)
    (r1 r2 : RandDraws) (s t : ScrapeState) (page : Nat)
    (h : stateCore s = stateCore t) :
    stateCore (processPage fetch r1 s page)
      = stateCore (processPage fetch r2 t page) := by
  have h1 : s.articles = t.articles := congrArg (fun x => x.1) h
  have h2 : s.unique_urls = t.unique_urls := congrArg (fun x => x.2.1) h
  have h3 : s.consecutive_empty = t.consecutive_empty :=
    congrArg (fun x => x.2.2) h
  have hp : (scrape_page (fetch page) s.unique_urls (r1.jitter page)).1
      = (scrape_page (fetch page) t.unique_urls (r2.jitter page)).1 := by
    rw [h2]
    exact scrapePageGo_items_jitter (fetch page) t.unique_urls
      (r1.jitter page) (r2.jitter page) max_retries 0
  simp only [processPage, hp]
  by_cases hE :
      (scrape_page (fetch page) t.unique_urls (r2.jitter page)).1.isEmpty
  · rw [if_pos hE, if_pos hE]
    simp [stateCore, h1, h2, h3]
  · rw [if_neg hE, if_neg hE]
    simp [stateCore, h1, h2, h3]

/-- The inner page loop, run from core-equal states under two randomness
streams, ends the same way with core-equal states. -/
theorem runPages_core (fetch : Nat → Nat → FetchOutcome) (cancel : Nat → Bool)
    (r1 r2 : RandDraws) :
    ∀ (pages : List Nat) (s t : ScrapeState), stateCore s = stateCore t →
      loopTag (runPages fetch r1 cancel pages s)
        = loopTag (runPages fetch r2 cancel pages t) ∧
      stateCore (loopState (runPages fetch r1 cancel pages s))
        = stateCore (loopState (runPages fetch r2 cancel pages t)) := by
  intro pages
  induction pages with
  | nil => intro s t h; exact ⟨rfl, h⟩
  | cons p rest ih =>
    intro s t h
    simp only [runPages]
    by_cases hc : cancel p
    · simp only [if_pos hc]
      exact ⟨rfl, h⟩
    · simp only [if_neg hc]
      have hcore := processPage_core fetch r1 r2 s t p h
      have hce : (processPage fetch r1 s p).consecutive_empty
          = (processPage fetch r2 t p).consecutive_empty :=
        congrArg (fun x => x.2.2) hcore
      by_cases h15 : 15 ≤ (processPage fetch r1 s p).consecutive_empty
      · rw [if_pos h15, if_pos (hce ▸ h15)]
        exact ⟨rfl, hcore⟩
      · rw [if_neg h15, if_neg (fun hx => h15 (hce ▸ hx))]
        exact ih (processPage fetch r1 s p) (processPage fetch r2 t p) hcore
  
/-- The batch loop preserves core equality across randomness streams. -/
theorem scrapeBatches_core (fetch : Nat → Nat → FetchOutcome)
    (cancel : Nat → Bool) (r1 r2 : RandDraws) :
    ∀ (l : List Nat) (s t : ScrapeState), stateCore s = stateCore t →
      stateCore (scrapeBatches fetch r1 cancel l s)
        = stateCore (scrapeBatches fetch r2 cancel l t) := by
  intro l
  induction l with
  | nil => intro s t h; exact h
  | cons bs rest ih =>
    intro s t h
    obtain ⟨htag, hst⟩ := runPages_core fetch cancel r1 r2 (batchPages bs) s t h
    simp only [scrapeBatches]
    cases hA : runPages fetch r1 cancel (batchPages bs) s with
    | finished s1 =>
      cases hB : runPages fetch r2 cancel (batchPages bs) t with
      | finished t1 =>
        apply ih
        have hco : stateCore s1 = stateCore t1 := by
          have := hst
          rw [hA, hB] at this
          exact this
        by_cases hcd : min (bs + batch_size) (MAX_PAGES + 1) ≤ MAX_PAGES
        · rw [if_pos hcd, if_pos hcd]
          exact hco
        · rw [if_neg hcd, if_neg hcd]
          exact hco
      | stopped t1 => rw [hA, hB] at htag; cases htag
      | interrupted t1 => rw [hA, hB] at htag; cases htag
    | stopped s1 =>
      cases hB : runPages fetch r2 cancel (batchPages bs) t with
      | finished t1 => rw [hA, hB] at htag; cases htag
      | stopped t1 =>
        have := hst
        rw [hA, hB] at this
        exact this
      | interrupted t1 => rw [hA, hB] at htag; cases htag
    | interrupted s1 =>
      cases hB : runPages fetch r2 cancel (batchPages bs) t with
      | finished t1 => rw [hA, hB] at htag; cases htag
      | stopped t1 => rw [hA, hB] at htag; cases htag
      | interrupted t1 =>
        have := hst
        rw [hA, hB] at this
        exact this

/-- C10: for a fixed family of per-page per-attempt fetch outcomes and a
fixed cancellation signal, two runs differing only in the random draws
return exactly the same article list in the same order: randomness shapes
only the sleep durations and the session refresh schedule, never which
items are admitted. -/
theorem C10_rand_noninterference (fetch : Nat → Nat → FetchOutcome)
    (cancel : Nat → Bool) (r1 r2 : RandDraws) :
    scrape fetch r1 cancel = scrape fetch r2 cancel := by
  have h := scrapeBatches_core fetch cancel r1 r2 batchStarts initState initState rfl
  exact congrArg (fun x => x.1) h
